import Mathlib

/-!
Verification of the datalens-ai backend core against its design document.

The development shallowly embeds the session-scoped tabular analysis engine
of `backend/app/services/data_service.py` and
`backend/app/services/ai_service.py`:

* the dataset registry (`store_session` / `get_session` / `delete_session`),
* the profiling engine (`profile_column` / `profile_dataframe`),
* the execution sandbox (`execute_pandas_code`), and
* the query orchestrator (`AIService.query` with `_parse_response`).

Modelling conventions:

* Python floats are modelled by exact rationals; `round(x, d)` is modelled
  by round-half-to-even on the exact rational value (Python's semantics on
  exactly representable values).
* Python dictionaries are modelled as association lists (insertion order,
  duplicate keys collapsed with last-wins, as `json.loads` does) or as
  functions into `Option` for the registry maps.
* Python heap references are modelled by an explicit heap of dataframes
  addressed by natural numbers, so that `df.copy()` and in-place mutation
  by an executed snippet are represented faithfully.
* Exceptions are modelled by `Except String`; an uncaught exception in a
  Python function corresponds to an `.error` result of its embedding.
-/

/-- Python's `round` on an exact value: round half to even (banker's
rounding) to the nearest integer. -/
def roundHalfEven (q : ℚ) : ℤ :=
  if q - ⌊q⌋ < 1/2 then ⌊q⌋
  else if (1 : ℚ)/2 < q - ⌊q⌋ then ⌊q⌋ + 1
  else if ⌊q⌋ % 2 = 0 then ⌊q⌋ else ⌊q⌋ + 1

/-- Python's `round(q, d)` on an exact rational value. -/
def pyRound (d : Nat) (q : ℚ) : ℚ := (roundHalfEven (q * 10 ^ d) : ℚ) / 10 ^ d

theorem roundHalfEven_le (q : ℚ) : (roundHalfEven q : ℚ) ≤ q + 1/2 := by
  unfold roundHalfEven
  have h0 : ((⌊q⌋ : ℤ) : ℚ) ≤ q := Int.floor_le q
  have h1 : q < (⌊q⌋ : ℤ) + 1 := Int.lt_floor_add_one q
  split_ifs <;> push_cast <;> linarith

theorem le_roundHalfEven (q : ℚ) : q - 1/2 ≤ (roundHalfEven q : ℚ) := by
  unfold roundHalfEven
  have h0 : ((⌊q⌋ : ℤ) : ℚ) ≤ q := Int.floor_le q
  have h1 : q < (⌊q⌋ : ℤ) + 1 := Int.lt_floor_add_one q
  split_ifs <;> push_cast <;> linarith

theorem pyRound_le (d : Nat) (q : ℚ) :
    pyRound d q ≤ q + 1 / (2 * 10 ^ d) := by
  unfold pyRound
  have hp : (0 : ℚ) < 10 ^ d := by positivity
  have h := roundHalfEven_le (q * 10 ^ d)
  rw [div_le_iff hp]
  calc (roundHalfEven (q * 10 ^ d) : ℚ) ≤ q * 10 ^ d + 1/2 := h
    _ = (q + 1 / (2 * 10 ^ d)) * 10 ^ d := by field_simp; ring

theorem le_pyRound (d : Nat) (q : ℚ) :
    q - 1 / (2 * 10 ^ d) ≤ pyRound d q := by
  unfold pyRound
  have hp : (0 : ℚ) < 10 ^ d := by positivity
  have h := le_roundHalfEven (q * 10 ^ d)
  rw [le_div_iff hp]
  calc (q - 1 / (2 * 10 ^ d)) * 10 ^ d = q * 10 ^ d - 1/2 := by field_simp; ring
    _ ≤ (roundHalfEven (q * 10 ^ d) : ℚ) := h

/-- Rounding never pushes a value above an integer upper bound. -/
theorem pyRound_le_of_le (d : Nat) (q : ℚ) (M : ℤ) (h : q ≤ (M : ℚ)) :
    pyRound d q ≤ (M : ℚ) := by
  unfold pyRound
  have hp : (0 : ℚ) < 10 ^ d := by positivity
  have h1 : (roundHalfEven (q * 10 ^ d) : ℚ) ≤ (M : ℚ) * 10 ^ d + 1/2 := by
    have := roundHalfEven_le (q * 10 ^ d)
    nlinarith
  have h2 : roundHalfEven (q * 10 ^ d) ≤ M * 10 ^ d := by
    have hlt : (roundHalfEven (q * 10 ^ d) : ℚ) < (M * 10 ^ d : ℤ) + 1 := by
      push_cast; linarith
    exact_mod_cast Int.lt_add_one_iff.mp (by exact_mod_cast hlt)
  rw [div_le_iff hp]
  calc (roundHalfEven (q * 10 ^ d) : ℚ) ≤ ((M * 10 ^ d : ℤ) : ℚ) := by
        exact_mod_cast h2
    _ = (M : ℚ) * 10 ^ d := by push_cast; ring

/-- Rounding never pushes a value below an integer lower bound. -/
theorem le_pyRound_of_le (d : Nat) (q : ℚ) (M : ℤ) (h : (M : ℚ) ≤ q) :
    (M : ℚ) ≤ pyRound d q := by
  unfold pyRound
  have hp : (0 : ℚ) < 10 ^ d := by positivity
  have h1 : (M : ℚ) * 10 ^ d - 1/2 ≤ (roundHalfEven (q * 10 ^ d) : ℚ) := by
    have := le_roundHalfEven (q * 10 ^ d)
    nlinarith
  have h2 : M * 10 ^ d ≤ roundHalfEven (q * 10 ^ d) := by
    have hlt : ((M * 10 ^ d : ℤ) : ℚ) - 1 < (roundHalfEven (q * 10 ^ d) : ℚ) := by
      push_cast; linarith
    have := Int.lt_iff_add_one_le.mp (show M * 10 ^ d - 1 < roundHalfEven (q * 10 ^ d) by
      exact_mod_cast (by push_cast at hlt ⊢; linarith : ((M * 10 ^ d - 1 : ℤ) : ℚ) < (roundHalfEven (q * 10 ^ d) : ℚ)))
    omega
  rw [le_div_iff hp]
  calc (M : ℚ) * 10 ^ d = ((M * 10 ^ d : ℤ) : ℚ) := by push_cast; ring
    _ ≤ (roundHalfEven (q * 10 ^ d) : ℚ) := by exact_mod_cast h2

/-! ## Python/JSON value model

`Json` models the Python values produced by `json.loads`: `null`, booleans,
numbers (exact rationals standing for Python ints/floats), strings, lists
and dicts (association lists in insertion order with unique keys, as a
Python dict has), plus the non-standard constants `NaN` / `Infinity` /
`-Infinity` that Python's decoder accepts. -/

inductive Json where
  | null
  | bool (b : Bool)
  | num (q : ℚ)
  | str (s : String)
  | arr (xs : List Json)
  | obj (kvs : List (String × Json))
  | nan
  | inf (neg : Bool)

/-- Python dict insertion: replace the value in place if the key exists,
else append (dict insertion-order semantics). -/
def insertKV (kvs : List (String × Json)) (k : String) (v : Json) :
    List (String × Json) :=
  match kvs with
  | [] => [(k, v)]
  | (k', v') :: rest =>
    if k' = k then (k', v) :: rest else (k', v') :: insertKV rest k v

/-- Python `d.get(k)` on a dict modelled as an association list. -/
def objGet (kvs : List (String × Json)) (k : String) : Option Json :=
  (kvs.find? (fun p => p.1 == k)).map (·.2)

/-- Python truthiness of a decoded value. -/
def truthy : Json → Bool
  | .null => false
  | .bool b => b
  | .num q => if q = 0 then false else true
  | .str s => if s = "" then false else true
  | .arr xs => !xs.isEmpty
  | .obj kvs => !kvs.isEmpty
  | .nan => true
  | .inf _ => true

/-! ## A model of `json.loads`

Recursive-descent decoder over the JSON grammar Python's `json` module
accepts (strict mode): whitespace is space/tab/newline/carriage-return,
strings use the standard escapes, numbers follow the JSON grammar, and the
extra constants `NaN`, `Infinity`, `-Infinity` decode to float constants.
Duplicate object keys collapse last-wins, as in a Python dict.
Fuel-indexed to make the recursion structural; the fuel is set to the
input length plus one, which is sufficient because every recursive call
consumes at least one character first. -/

def isJsonWs (c : Char) : Bool :=
  c == ' ' || c == '\t' || c == '\n' || c == '\r'

def skipWs : List Char → List Char
  | [] => []
  | c :: cs => if isJsonWs c then skipWs cs else c :: cs

/-- Strip a literal token from the front, or fail. -/
def stripToken : List Char → List Char → Option (List Char)
  | [], cs => some cs
  | _ :: _, [] => none
  | t :: ts, c :: cs => if t = c then stripToken ts cs else none

def hexVal (c : Char) : Option Nat :=
  if '0' ≤ c ∧ c ≤ '9' then some (c.toNat - '0'.toNat)
  else if 'a' ≤ c ∧ c ≤ 'f' then some (c.toNat - 'a'.toNat + 10)
  else if 'A' ≤ c ∧ c ≤ 'F' then some (c.toNat - 'A'.toNat + 10)
  else none

/-- Decode a JSON string body (after the opening quote), producing the
decoded characters and the remainder after the closing quote. -/
def parseJStr (fuel : Nat) (cs : List Char) : Option (List Char × List Char) :=
  match fuel, cs with
  | 0, _ => none
  | _, [] => none
  | fuel + 1, c :: rest =>
    if c = '"' then some ([], rest)
    else if c = '\\' then
      match rest with
      | [] => none
      | e :: rest' =>
        let cont (d : Char) (rs : List Char) : Option (List Char × List Char) :=
          (parseJStr fuel rs).map (fun (s, r) => (d :: s, r))
        if e = '"' then cont '"' rest'
        else if e = '\\' then cont '\\' rest'
        else if e = '/' then cont '/' rest'
        else if e = 'b' then cont '\x08' rest'
        else if e = 'f' then cont '\x0C' rest'
        else if e = 'n' then cont '\n' rest'
        else if e = 'r' then cont '\r' rest'
        else if e = 't' then cont '\t' rest'
        else if e = 'u' then
          match rest' with
          | h1 :: h2 :: h3 :: h4 :: rest'' =>
            match hexVal h1, hexVal h2, hexVal h3, hexVal h4 with
            | some a, some b, some c', some d' =>
              let n := ((a * 16 + b) * 16 + c') * 16 + d'
              cont (Char.ofNat n) rest''
            | _, _, _, _ => none
          | _ => none
        else none
    else if c.toNat < 0x20 then none   -- strict mode: raw control characters are invalid
    else (parseJStr fuel rest).map (fun (s, r) => (c :: s, r))

def isDigit (c : Char) : Bool := '0' ≤ c && c ≤ '9'

def digitsToNat (ds : List Char) : Nat :=
  ds.foldl (fun acc c => acc * 10 + (c.toNat - '0'.toNat)) 0

/-- Decode a JSON number per the grammar
`-?(0|[1-9][0-9]*)(\.[0-9]+)?([eE][+-]?[0-9]+)?`. -/
def parseJNum (cs : List Char) : Option (ℚ × List Char) :=
  let (neg, cs1) := match cs with
    | '-' :: r => (true, r)
    | _ => (false, cs)
  let ipRes : Option (Nat × List Char) := match cs1 with
    | '0' :: r => some (0, r)
    | c :: _ =>
      if isDigit c ∧ c ≠ '0' then
        let ds := cs1.takeWhile isDigit
        some (digitsToNat ds, cs1.dropWhile isDigit)
      else none
    | [] => none
  match ipRes with
  | none => none
  | some (ip, cs2) =>
    let fpRes : Option (ℚ × List Char) := match cs2 with
      | '.' :: r =>
        let ds := r.takeWhile isDigit
        if ds.isEmpty then none
        else some ((digitsToNat ds : ℚ) / 10 ^ ds.length, r.dropWhile isDigit)
      | _ => some (0, cs2)
    match fpRes with
    | none => none
    | some (fp, cs3) =>
      let expRes : Option (Bool × Nat × List Char) := match cs3 with
        | c :: r =>
          if c = 'e' ∨ c = 'E' then
            let (eneg, r1) := match r with
              | '+' :: r' => (false, r')
              | '-' :: r' => (true, r')
              | _ => (false, r)
            let ds := r1.takeWhile isDigit
            if ds.isEmpty then none
            else some (eneg, digitsToNat ds, r1.dropWhile isDigit)
          else some (false, 0, cs3)
        | [] => some (false, 0, cs3)
      match expRes with
      | none => none
      | some (eneg, emag, cs4) =>
        let mag : ℚ := (ip : ℚ) + fp
        let mag := if eneg then mag / 10 ^ emag else mag * 10 ^ emag
        some (if neg then -mag else mag, cs4)

mutual

def parseJVal (fuel : Nat) (cs : List Char) : Option (Json × List Char) :=
  match fuel with
  | 0 => none
  | fuel + 1 =>
    match cs with
    | [] => none
    | c :: rest =>
      if c = '"' then
        (parseJStr fuel rest).map (fun (s, r) => (.str (String.mk s), r))
      else if c = '{' then
        match skipWs rest with
        | '}' :: r => some (.obj [], r)
        | cs' => parseJMembers fuel cs' []
      else if c = '[' then
        match skipWs rest with
        | ']' :: r => some (.arr [], r)
        | cs' => parseJItems fuel cs' []
      else if c = 'n' then
        (stripToken ['u','l','l'] rest).map (fun r => (.null, r))
      else if c = 't' then
        (stripToken ['r','u','e'] rest).map (fun r => (.bool true, r))
      else if c = 'f' then
        (stripToken ['a','l','s','e'] rest).map (fun r => (.bool false, r))
      else if c = 'N' then
        (stripToken ['a','N'] rest).map (fun r => (.nan, r))
      else if c = 'I' then
        (stripToken ['n','f','i','n','i','t','y'] rest).map (fun r => (.inf false, r))
      else if c = '-' then
        match stripToken ['I','n','f','i','n','i','t','y'] rest with
        | some r => some (.inf true, r)
        | none => parseJNum cs |>.map (fun (q, r) => (.num q, r))
      else
        parseJNum cs |>.map (fun (q, r) => (.num q, r))

/-- Members of an object, positioned at a key (not at `}`). -/
def parseJMembers (fuel : Nat) (cs : List Char)
    (acc : List (String × Json)) : Option (Json × List Char) :=
  match fuel with
  | 0 => none
  | fuel + 1 =>
    match cs with
    | '"' :: rest =>
      match parseJStr fuel rest with
      | none => none
      | some (k, r1) =>
        match skipWs r1 with
        | ':' :: r2 =>
          match parseJVal fuel (skipWs r2) with
          | none => none
          | some (v, r3) =>
            let acc' := insertKV acc (String.mk k) v
            match skipWs r3 with
            | '}' :: r4 => some (.obj acc', r4)
            | ',' :: r4 => parseJMembers fuel (skipWs r4) acc'
            | _ => none
        | _ => none
    | _ => none

/-- Items of an array, positioned at a value (not at `]`). -/
def parseJItems (fuel : Nat) (cs : List Char)
    (acc : List Json) : Option (Json × List Char) :=
  match fuel with
  | 0 => none
  | fuel + 1 =>
    match parseJVal fuel cs with
    | none => none
    | some (v, r1) =>
      match skipWs r1 with
      | ']' :: r2 => some (.arr (acc ++ [v]), r2)
      | ',' :: r2 => parseJItems fuel (skipWs r2) (acc ++ [v])
      | _ => none

end

/-- `json.loads`: decode a whole string, requiring only trailing whitespace
after the value (otherwise Python raises `Extra data`). -/
def jsonLoadsChars (cs : List Char) : Option Json :=
  let cs' := skipWs cs
  match parseJVal (cs'.length + 1) cs' with
  | some (j, rest) => if (skipWs rest).isEmpty then some j else none
  | none => none

def jsonLoads (s : String) : Option Json := jsonLoadsChars s.toList

/-! ## AIService._parse_response

Models `ai_service.py` lines 78-104: strip whitespace, strip a leading /
trailing markdown fence when the text starts with one, try `json.loads`,
then try the greedy brace-delimited substring (the regex
`\x7b[\s\S]*\x7d` finds the span from the first opening brace to the last
closing brace), and finally fall back to a dict carrying the raw reply as
the answer. -/

/-- Python `str.strip()` whitespace (ASCII subset). -/
def isPySpace (c : Char) : Bool :=
  c == ' ' || c == '\t' || c == '\n' || c == '\r' || c == '\x0b' || c == '\x0c'

def pyStripChars (cs : List Char) : List Char :=
  ((cs.dropWhile isPySpace).reverse.dropWhile isPySpace).reverse

/-- The two `re.sub` fence strippers: remove a leading ``` with optional
`json` tag and optional newline, and a trailing ``` with optional
preceding newline.  Only called when the stripped text starts with ```. -/
def stripFences (cs : List Char) : List Char :=
  let cs1 := match stripToken ['`','`','`'] cs with
    | some r => r
    | none => cs
  let cs2 := match stripToken ['j','s','o','n'] cs1 with
    | some r => r
    | none => cs1
  let cs3 := match cs2 with
    | '\n' :: r => r
    | _ => cs2
  match stripToken ['`','`','`'] cs3.reverse with
  | some r2 =>
    (match r2 with
     | '\n' :: r3 => r3
     | _ => r2).reverse
  | none => cs3

/-- The greedy `re.search` for a brace-delimited substring: the span from
the first opening brace to the last closing brace, when the latter comes
after the former. -/
def bracketSubstring (cs : List Char) : Option (List Char) :=
  match cs.dropWhile (fun c => !(c == '{')) with
  | [] => none
  | pre =>
    match pre.reverse.dropWhile (fun c => !(c == '}')) with
    | [] => none
    | post => some post.reverse

/-- The fallback reply when no JSON can be extracted: the raw reply text
becomes the answer, with no code and no chart. -/
def fallbackReply (raw : String) : Json :=
  .obj [("answer", .str raw), ("code", .null), ("chart", .null)]

/-- `AIService._parse_response`. -/
def parse_response (raw : String) : Json :=
  let text0 := pyStripChars raw.toList
  let text := if (['`','`','`'].isPrefixOf text0) then stripFences text0 else text0
  match jsonLoadsChars text with
  | some j => j
  | none =>
    match bracketSubstring text with
    | some sub =>
      match jsonLoadsChars sub with
      | some j => j
      | none => fallbackReply raw
    | none => fallbackReply raw

/-! ## Dataframe and Python runtime value model -/

/-- A cell value of a dataframe column (missing cells are `Option.none` at
the column level). -/
inductive CVal where
  | i (n : ℤ)
  | f (q : ℚ)
  | s (v : String)
  | b (v : Bool)
  deriving DecidableEq

/-- Pandas dtypes occurring in the model.  `str(series.dtype)` of an
object column is the string "object", which the warning scan compares
against. -/
inductive Dtype where
  | int64
  | float64
  | boolDt
  | objectDt
  deriving DecidableEq

def dtypeStr : Dtype → String
  | .int64 => "int64"
  | .float64 => "float64"
  | .boolDt => "bool"
  | .objectDt => "object"

/-- `pd.api.types.is_numeric_dtype`: int, float and bool dtypes are
numeric; object is not. -/
def isNumericDtype : Dtype → Bool
  | .objectDt => false
  | _ => true

structure Column where
  name : String
  dtype : Dtype
  cells : List (Option CVal)

structure DataFrameData where
  nrows : Nat
  cols : List Column

/-- Well-formedness: every column has exactly one cell per row. -/
def DataFrameData.WF (d : DataFrameData) : Prop :=
  ∀ c ∈ d.cols, c.cells.length = d.nrows

/-- Python runtime values a snippet can bind to `result`.  `npInt` is a
numpy integer scalar, which is not an instance of the built-in `int`;
`nanFloat` is a float NaN (an instance of the built-in `float`). -/
inductive PyVal where
  | none
  | bool (b : Bool)
  | int (n : ℤ)
  | float (q : ℚ)
  | nanFloat
  | str (s : String)
  | npInt (n : ℤ)
  | df (d : DataFrameData)
  | series (kvs : List (PyVal × PyVal))
  | list (xs : List PyVal)
  | dict (kvs : List (PyVal × PyVal))

def cvalPy : CVal → PyVal
  | .i n => .int n
  | .f q => .float q
  | .s v => .str v
  | .b v => .bool v

/-- `df.to_dict(orient="records")`: one dict per row keyed by column name;
a missing cell renders as a float NaN. -/
def toRecords (d : DataFrameData) : PyVal :=
  .list ((List.range d.nrows).map (fun i =>
    .dict (d.cols.map (fun c =>
      (PyVal.str c.name,
        match c.cells[i]? with
        | some (some v) => cvalPy v
        | _ => PyVal.nanFloat)))))

/-- `str(result)` for the values that reach the stringified-fallback
branch of the classifier (`None` and numpy scalars); other values never
reach it. -/
def pyStr : PyVal → String
  | .none => "None"
  | .npInt n => toString n
  | _ => "<object>"

structure ExecResult where
  type : String
  data : PyVal

/-- Classification of `local_vars.get("result")` by runtime type
(`data_service.py` lines 177-188).  `res = Option.none` models a snippet
that completed without binding `result`: `dict.get` then yields Python
`None`, which matches none of the `isinstance` checks and falls through
to the stringified `unknown` branch. -/
def classifyResult (res : Option PyVal) : ExecResult :=
  match res.getD .none with
  | .df d => ⟨"dataframe", toRecords d⟩
  | .series kvs => ⟨"series", .dict kvs⟩
  | .int n => ⟨"scalar", .int n⟩
  | .float q => ⟨"scalar", .float q⟩
  | .nanFloat => ⟨"scalar", .nanFloat⟩
  | .str s => ⟨"scalar", .str s⟩
  | .bool b => ⟨"scalar", .bool b⟩
  | .list xs => ⟨"collection", .list xs⟩
  | .dict kvs => ⟨"collection", .dict kvs⟩
  | .none => ⟨"unknown", .str (pyStr .none)⟩
  | .npInt n => ⟨"unknown", .str (pyStr (.npInt n))⟩

/-! ## Dataset registry (`DataService` class state)

The two class-level dicts `_sessions` and `_metadata` are modelled as
maps from session id, with dataframe objects held behind an explicit heap
of references so that object identity, `df.copy()` and in-place mutation
are represented.  `next` is the next fresh reference. -/

def SessionMeta := List (String × Json)

structure ServiceState where
  sessions : String → Option Nat
  metadata : String → Option SessionMeta
  heap : Nat → DataFrameData
  next : Nat

def emptyDf : DataFrameData := ⟨0, []⟩

def emptyState : ServiceState :=
  ⟨fun _ => Option.none, fun _ => Option.none, fun _ => emptyDf, 0⟩

/-- Registry references are all below the allocation frontier. -/
def ServiceState.WFRefs (st : ServiceState) : Prop :=
  ∀ sid r, st.sessions sid = some r → r < st.next

/-- `DataService.store_session`: binds the session id to a (freshly
constructed) dataframe object and its metadata. -/
def store_session (st : ServiceState) (sid : String) (d : DataFrameData)
    (meta : SessionMeta) : ServiceState :=
  { sessions := fun k => if k = sid then some st.next else st.sessions k,
    metadata := fun k => if k = sid then some meta else st.metadata k,
    heap := fun r => if r = st.next then d else st.heap r,
    next := st.next + 1 }

/-- `DataService.get_session`. -/
def get_session (st : ServiceState) (sid : String) : Option DataFrameData :=
  (st.sessions sid).map st.heap

/-- `DataService.get_metadata`. -/
def get_metadata (st : ServiceState) (sid : String) : Option SessionMeta :=
  st.metadata sid

/-- `DataService.delete_session`: checks membership in `_sessions` only,
then deletes from both dicts; `del cls._metadata[session_id]` raises
`KeyError` if the metadata entry were missing. -/
def delete_session (st : ServiceState) (sid : String) :
    Except String (ServiceState × Bool) :=
  if (st.sessions sid).isSome then
    if (st.metadata sid).isSome then
      .ok ({ st with
              sessions := fun k => if k = sid then Option.none else st.sessions k,
              metadata := fun k => if k = sid then Option.none else st.metadata k },
           true)
    else .error "KeyError"
  else .ok (st, false)

/-- States reachable from the empty registry by `store_session` and
(non-raising) `delete_session` operations. -/
inductive Reach : ServiceState → Prop where
  | empty : Reach emptyState
  | store (st : ServiceState) (sid : String) (d : DataFrameData)
      (meta : SessionMeta) : Reach st → Reach (store_session st sid d meta)
  | delete (st st' : ServiceState) (sid : String) (b : Bool) :
      Reach st → delete_session st sid = .ok (st', b) → Reach st'

/-! ## Execution sandbox (`DataService.execute_pandas_code`)

The snippet itself is dynamically produced Python text; its behaviour is
a parameter.  A `Snippet` receives the contents of the fresh copy of the
session dataframe bound to the name `df` and produces the final contents
of that copy (reflecting any in-place mutation) together with either the
value bound to `result` (`Option.none` when the snippet completed without
binding `result`) or an exception message.  The scope gives the snippet
no reference to the registry or to any other session's dataframe, which
models the emptied `__builtins__` / fresh-locals environment. -/

def Snippet := DataFrameData → DataFrameData × Except String (Option PyVal)

/-- `DataService.execute_pandas_code`.  The `code` argument is whatever
value sat in the parsed reply's `code` field; `exec` raises `TypeError`
on a non-string, which the wrapper converts like any other exception. -/
def execute_pandas_code (st : ServiceState) (sid : String) (code : Json)
    (codeSem : String → Snippet) : ServiceState × Except String ExecResult :=
  match st.sessions sid with
  | Option.none => (st, .error ("Session not found: " ++ sid))
  | some r =>
    let d := st.heap r
    let rc := st.next
    let st1 : ServiceState :=
      { st with heap := fun x => if x = rc then d else st.heap x,
                next := st.next + 1 }
    match code with
    | .str s =>
      let run := codeSem s d
      let st2 : ServiceState :=
        { st1 with heap := fun x => if x = rc then run.1 else st1.heap x }
      match run.2 with
      | .ok res => (st2, .ok (classifyResult res))
      | .error msg => (st2, .error ("Code execution failed: " ++ msg))
    | _ =>
      (st1, .error "Code execution failed: exec() arg 1 must be a string, bytes or code object")

/-! ## Profiling engine (`DataService.profile_column` / `profile_dataframe`)

The embedding covers the fields the design document's claims concern:
null/non-null bookkeeping, distinct counts, top-value frequencies, the
quality score and the warning scan.  The numeric summary statistics of
`profile_column` (mean/std/min/max/median/quantiles, source lines 92-101)
are not modelled: no claim mentions them and the standard deviation is
irrational.  Warning messages are modelled as tagged values rather than
interpolated f-strings. -/

/-- Distinct values of a list in first-encountered order (the order a
pandas hashtable produces for `value_counts` ties). -/
def distinctFirst (l : List CVal) : List CVal :=
  l.foldl (fun acc v => if v ∈ acc then acc else acc ++ [v]) []

structure TopValue where
  value : CVal
  count : Nat
  percentage : ℚ

/-- `series.value_counts()`: distinct present values with multiplicities,
stably sorted by count descending (ties in first-encountered order). -/
def value_counts (cells : List (Option CVal)) : List (CVal × Nat) :=
  let present := cells.filterMap id
  ((distinctFirst present).map (fun v => (v, present.count v))).insertionSort
    (fun a b => b.2 ≤ a.2)

/-- The `top_values` payload: `value_counts().head(10)` with percentage of
the total length (nulls included), rounded to 2 decimals. -/
def topValuesOf (cells : List (Option CVal)) : List TopValue :=
  let total := cells.length
  ((value_counts cells).take 10).map (fun p =>
    ⟨p.1, p.2, pyRound 2 ((p.2 : ℚ) / (total : ℚ) * 100)⟩)

structure ColumnProfile where
  name : String
  dtype : String
  non_null_count : Nat
  null_count : Nat
  null_percentage : ℚ
  unique_count : Nat
  top_values : Option (List TopValue)

/-- `DataService.profile_column`. -/
def profile_column (col : Column) : ColumnProfile :=
  let total := col.cells.length
  let present := col.cells.filterMap id
  let nullCount := col.cells.countP (·.isNone)
  let uniq := (distinctFirst present).length
  { name := col.name
    dtype := dtypeStr col.dtype
    non_null_count := present.length
    null_count := nullCount
    null_percentage :=
      if 0 < total then pyRound 2 ((nullCount : ℚ) / (total : ℚ) * 100) else 0
    unique_count := uniq
    top_values :=
      if isNumericDtype col.dtype = false ∨ uniq < 20 then
        some (topValuesOf col.cells)
      else Option.none }

inductive Warning where
  | missingValues (colName : String) (pct : ℚ)
  | singleUnique (colName : String)
  | idColumn (colName : String)

/-- The per-column warning checks of `profile_dataframe`, in source
order. -/
def columnWarnings (nrows : Nat) (col : ColumnProfile) : List Warning :=
  (if 50 < col.null_percentage then [Warning.missingValues col.name col.null_percentage] else [])
    ++ (if col.unique_count = 1 then [Warning.singleUnique col.name] else [])
    ++ (if col.unique_count = nrows ∧ col.dtype = "object" then [Warning.idColumn col.name] else [])

structure DataProfile where
  session_id : String
  filename : String
  row_count : Nat
  column_count : Nat
  columns : List ColumnProfile
  quality_score : ℚ
  warnings : List Warning

/-- `DataService.profile_dataframe` (file kind, memory footprint and the
serialized 5-row sample are not modelled; no claim concerns them).  The
warning accumulation mirrors the source's loop with its three appends per
column. -/
def profile_dataframe (d : DataFrameData) (sid fn : String) : DataProfile :=
  let columns := d.cols.map profile_column
  let total_cells : ℕ := d.nrows * d.cols.length
  let null_cells : ℕ := (d.cols.map (fun c => c.cells.countP (·.isNone))).sum
  let completeness : ℚ :=
    if 0 < total_cells then (1 - (null_cells : ℚ) / (total_cells : ℚ)) * 100
    else 100
  let warnings := columns.foldl (fun acc col =>
    let acc1 := if 50 < col.null_percentage then
        acc ++ [Warning.missingValues col.name col.null_percentage] else acc
    let acc2 := if col.unique_count = 1 then
        acc1 ++ [Warning.singleUnique col.name] else acc1
    if col.unique_count = d.nrows ∧ col.dtype = "object" then
      acc2 ++ [Warning.idColumn col.name] else acc2) []
  { session_id := sid
    filename := fn
    row_count := d.nrows
    column_count := d.cols.length
    columns := columns
    quality_score := pyRound 1 completeness
    warnings := warnings }

/-! ## Chart validation (`ai_service.py` lines 153-167) -/

inductive ChartType where
  | line
  | bar
  | area
  | scatter
  | pie
  | histogram
  | heatmap
  deriving DecidableEq

/-- `ChartType(value)`: enum lookup by value; any other value raises
`ValueError`. -/
def chartTypeOfStr (s : String) : Option ChartType :=
  if s = "line" then some .line
  else if s = "bar" then some .bar
  else if s = "area" then some .area
  else if s = "scatter" then some .scatter
  else if s = "pie" then some .pie
  else if s = "histogram" then some .histogram
  else if s = "heatmap" then some .heatmap
  else Option.none

def chartTypeVal : ChartType → String
  | .line => "line"
  | .bar => "bar"
  | .area => "area"
  | .scatter => "scatter"
  | .pie => "pie"
  | .histogram => "histogram"
  | .heatmap => "heatmap"

structure ChartData where
  type : ChartType
  title : String
  data : List Json
  x_key : Option String
  y_keys : List String
  config : List (String × Json)

/-- Pydantic validation of `title : str`. -/
def vStr : Json → Option String
  | .str s => some s
  | _ => Option.none

/-- Pydantic validation of `data : list[dict[str, Any]]`. -/
def vRecords : Json → Option (List Json)
  | .arr xs => if xs.all (fun x => match x with | .obj _ => true | _ => false)
      then some xs else Option.none
  | _ => Option.none

/-- Pydantic validation of `x_key : str | None`. -/
def vOptStr : Json → Option (Option String)
  | .null => some Option.none
  | .str s => some (some s)
  | _ => Option.none

/-- Pydantic validation of `y_keys : list[str]`. -/
def vStrList : Json → Option (List String)
  | .arr xs => xs.mapM vStr
  | _ => Option.none

/-- Pydantic validation of `config : dict[str, Any]`. -/
def vObj : Json → Option (List (String × Json))
  | .obj kvs => some kvs
  | _ => Option.none

/-- The guarded `ChartData(...)` construction: every step sits inside a
`try` whose handler drops the chart.  A non-dict candidate fails at
`chart_info.get` (`AttributeError`); a `type` value outside the enum
fails at `ChartType(...)` (`ValueError`); a missing `type` is defaulted
to the string "bar" by `chart_info.get("type", "bar")`; the remaining
fields go through pydantic validation. -/
def mkChart (ci : Json) : Option ChartData := do
  match ci with
  | .obj kvs =>
    let ts ← vStr ((objGet kvs "type").getD (.str "bar"))
    let ct ← chartTypeOfStr ts
    let title ← vStr ((objGet kvs "title").getD (.str ""))
    let data ← vRecords ((objGet kvs "data").getD (.arr []))
    let xk ← vOptStr ((objGet kvs "x_key").getD .null)
    let yks ← vStrList ((objGet kvs "y_keys").getD (.arr []))
    let cfg ← vObj ((objGet kvs "config").getD (.obj []))
    pure ⟨ct, title, data, xk, yks, cfg⟩
  | _ => Option.none

/-! ## Query orchestrator (`AIService.query`)

The external model call is abstracted by its successful reply text (the
claims under verification all condition on the call having returned), and
wall-clock time by an `elapsed` parameter.  The behaviour of the
dynamically generated snippet text is the `codeSem` parameter, as in the
sandbox.  `queryCore` is the body of the `try` block (lines 127-178): an
`.error` outcome models an exception reaching the generic handler, which
`query` converts into the `success=false` response of lines 186-191. -/

structure QueryResponse where
  success : Bool
  answer : String
  data : Option PyVal
  chart : Option ChartData
  code : Option String
  execution_time_ms : ℚ

/-- Pydantic validation of `QueryResponse.data : list[dict[str, Any]] |
None`: a list whose elements are dicts with string keys. -/
def validData (v : PyVal) : Bool :=
  match v with
  | .list xs => xs.all (fun x =>
      match x with
      | .dict kvs => kvs.all (fun p =>
          match p.1 with
          | .str _ => true
          | _ => false)
      | _ => false)
  | _ => false

/-- Pydantic validation of the echoed `code` field
(`parsed.get("code") if include_code else None`, of type `str | None`). -/
def codeEcho (kvs : List (String × Json)) (ic : Bool) :
    Except String (Option String) :=
  if ic then
    match objGet kvs "code" with
    | Option.none => .ok Option.none
    | some .null => .ok Option.none
    | some (.str s) => .ok (some s)
    | some _ => .error "ValidationError: code must be a string"
  else .ok Option.none

/-- The chart attached to the response: `mkChart` of the candidate when
the parsed reply carries a truthy `chart` field, absent otherwise
(`if parsed.get("chart"):` of line 155). -/
def chartOf (kvs : List (String × Json)) : Option ChartData :=
  match objGet kvs "chart" with
  | some cv => if truthy cv then mkChart cv else Option.none
  | Option.none => Option.none

/-- Response assembly: chart construction (never raising), then the
`QueryResponse(...)` pydantic validation of answer, data and echoed
code. -/
def buildResponse (kvs : List (String × Json)) (rdata : Option PyVal)
    (includeCode : Bool) (elapsed : ℚ) : Except String QueryResponse :=
  match (objGet kvs "answer").getD (.str "Analysis complete.") with
  | .str a =>
    if (match rdata with | some v => validData v | Option.none => true) then
      match codeEcho kvs includeCode with
      | .ok codeF => .ok ⟨true, a, rdata, chartOf kvs, codeF, pyRound 2 elapsed⟩
      | .error e => .error e
    else .error "ValidationError: data must be a list of dicts"
  | _ => .error "ValidationError: answer must be a string"

/-- The dataframe/series/collection data extraction of lines 146-149. -/
def extractData (er : ExecResult) : Option PyVal :=
  if er.type = "dataframe" then some er.data
  else if er.type = "series" ∨ er.type = "collection" then
    some (match er.data with
          | .list xs => .list xs
          | v => .list [v])
  else Option.none

/-- Body of the `try` block of `AIService.query` for a session that was
found: parse the reply, run the sandbox when the reply carries a truthy
`code` field (appending the caveat to the answer on failure, which raises
`KeyError`/`TypeError` if the parsed reply has no string answer), then
assemble the response. -/
def queryCore (st : ServiceState) (sid : String) (replyText : String)
    (includeCode : Bool) (codeSem : String → Snippet) (elapsed : ℚ) :
    ServiceState × Except String QueryResponse :=
  match parse_response replyText with
  | .obj kvs0 =>
    let codeV := (objGet kvs0 "code").getD .null
    if truthy codeV then
      let ex := execute_pandas_code st sid codeV codeSem
      match ex.2 with
      | .ok er => (ex.1, buildResponse kvs0 (extractData er) includeCode elapsed)
      | .error msg =>
        match objGet kvs0 "answer" with
        | some (.str a) =>
          let kvs1 := insertKV kvs0 "answer"
            (.str (a ++ "\n\n⚠️ Code execution note: " ++ msg))
          (ex.1, buildResponse kvs1 Option.none includeCode elapsed)
        | some _ =>
          (ex.1, .error "TypeError: unsupported operand types for +=")
        | Option.none => (ex.1, .error "KeyError: answer")
    else
      (st, buildResponse kvs0 Option.none includeCode elapsed)
  | _ => (st, .error "AttributeError: object has no attribute get")

/-- `AIService.query`: the absent-session early return of lines 110-117,
then the `try` body with its generic exception handler. -/
def query (st : ServiceState) (sid : String) (replyText : String)
    (includeCode : Bool) (codeSem : String → Snippet) (elapsed : ℚ) :
    ServiceState × QueryResponse :=
  match st.sessions sid with
  | Option.none =>
    (st, ⟨false, "Session not found: " ++ sid ++ ". Please upload a file first.",
          Option.none, Option.none, Option.none, 0⟩)
  | some _ =>
    match queryCore st sid replyText includeCode codeSem elapsed with
    | (st', .ok r) => (st', r)
    | (st', .error e) =>
      (st', ⟨false, "Unexpected error: " ++ e,
             Option.none, Option.none, Option.none, elapsed⟩)

/-! ## Concrete fixtures used by witnesses and counterexamples -/

/-- A one-cell integer dataframe. -/
def dfOne : DataFrameData := ⟨1, [⟨"x", .int64, [some (.i 5)]⟩]⟩

/-- A registry holding the single session "s" bound to `dfOne`. -/
def sessionState1 : ServiceState := store_session emptyState "s" dfOne []

/-- Snippet semantics: every snippet completes, leaves the copy unchanged
and binds `result` to a numpy integer scalar (as `df['x'].sum()` does). -/
def semNp : String → Snippet := fun _ => fun d => (d, .ok (some (.npInt 5)))

/-- Snippet semantics: every snippet completes without binding `result`. -/
def semMissing : String → Snippet := fun _ => fun d => (d, .ok Option.none)

/-- Snippet semantics: every snippet raises. -/
def semFail : String → Snippet := fun _ => fun d => (d, .error "boom")

/-- A 7-row object column whose values are pairwise distinct. -/
def col7 : Column :=
  ⟨"region", .objectDt,
   [some (.s "a"), some (.s "b"), some (.s "c"), some (.s "d"),
    some (.s "e"), some (.s "f"), some (.s "g")]⟩

/-- A 1-row, 3-column dataframe with exactly one missing cell (3 cells
total). -/
def dfOneThree : DataFrameData :=
  ⟨1, [⟨"a", .int64, [some (.i 1)]⟩, ⟨"b", .int64, [some (.i 2)]⟩,
       ⟨"c", .float64, [Option.none]⟩]⟩

/-- The spec's end-to-end example: 10 rows, 2 columns, exactly one
missing cell. -/
def dfTenTwo : DataFrameData :=
  ⟨10, [⟨"region", .objectDt, List.replicate 10 (some (.s "x"))⟩,
        ⟨"revenue", .float64, Option.none :: List.replicate 9 (some (.f 1))⟩]⟩

/-! ## Registry invariants (claim C5) -/

/-- Dataset and metadata entries are present-or-absent together. -/
def KeysAligned (st : ServiceState) : Prop :=
  ∀ sid, (st.sessions sid).isSome ↔ (st.metadata sid).isSome

theorem keysAligned_empty : KeysAligned emptyState := by
  intro sid; simp [emptyState]

theorem keysAligned_store (st : ServiceState) (sid : String)
    (d : DataFrameData) (meta : SessionMeta) (h : KeysAligned st) :
    KeysAligned (store_session st sid d meta) := by
  intro k
  by_cases hk : k = sid <;> simp [store_session, hk, h k]

theorem keysAligned_delete (st st' : ServiceState) (sid : String) (b : Bool)
    (h : KeysAligned st) (hd : delete_session st sid = .ok (st', b)) :
    KeysAligned st' := by
  unfold delete_session at hd
  by_cases hs : (st.sessions sid).isSome
  · have hm : (st.metadata sid).isSome := (h sid).mp hs
    rw [if_pos hs, if_pos hm] at hd
    cases hd
    intro k
    by_cases hk : k = sid <;> simp [hk, h k]
  · rw [if_neg hs] at hd
    cases hd
    exact h

theorem keysAligned_reach (st : ServiceState) (h : Reach st) :
    KeysAligned st := by
  induction h with
  | empty => exact keysAligned_empty
  | store st sid d meta _ ih => exact keysAligned_store st sid d meta ih
  | delete st st' sid b _ hd ih => exact keysAligned_delete st st' sid b ih hd

/-- C5: across every sequence of `store_session` / `delete_session`
operations starting from the empty registry, the session map and the
metadata map have equal key sets; `delete_session` never raises, removes
both entries together (the post-state still has equal key sets), and
returns `true` exactly when an entry existed and `false` for a
nonexistent session. -/
theorem registry_aligned_delete_total (st : ServiceState) (h : Reach st) :
    KeysAligned st ∧
    ∀ sid, ∃ st' b, delete_session st sid = .ok (st', b) ∧
      (b = true ↔ (st.sessions sid).isSome) ∧
      (st'.sessions sid = Option.none ∧ st'.metadata sid = Option.none) ∧
      KeysAligned st' := by
  have ha := keysAligned_reach st h
  refine ⟨ha, fun sid => ?_⟩
  by_cases hs : (st.sessions sid).isSome
  · have hm : (st.metadata sid).isSome := (ha sid).mp hs
    have heq : delete_session st sid
        = .ok ({ st with
                  sessions := fun k => if k = sid then Option.none else st.sessions k,
                  metadata := fun k => if k = sid then Option.none else st.metadata k },
               true) := by
      unfold delete_session
      rw [if_pos hs, if_pos hm]
    refine ⟨_, true, heq, by simp [hs], by simp, ?_⟩
    exact keysAligned_delete st _ sid true ha heq
  · have hm : ¬ (st.metadata sid).isSome := fun hm => hs ((ha sid).mpr hm)
    refine ⟨st, false, ?_, by simp [hs], ?_, ha⟩
    · unfold delete_session
      rw [if_neg hs]
    · constructor
      · exact Option.not_isSome_iff_eq_none.mp hs
      · exact Option.not_isSome_iff_eq_none.mp hm

/-- Witness for C5 at a concrete reachable state: one store followed by a
delete of the stored session and a delete of an absent session. -/
theorem registry_aligned_delete_total_witness :
    KeysAligned (store_session emptyState "s" dfOne []) ∧
    (∃ st' , delete_session (store_session emptyState "s" dfOne []) "s"
        = .ok (st', true)) ∧
    (∃ st', delete_session (store_session emptyState "s" dfOne []) "absent"
        = .ok (st', false)) := by
  obtain ⟨ha, hdel⟩ := registry_aligned_delete_total
    (store_session emptyState "s" dfOne [])
    (Reach.store emptyState "s" dfOne [] Reach.empty)
  refine ⟨ha, ?_, ?_⟩
  · obtain ⟨st', b, heq, hb, -, -⟩ := hdel "s"
    have hsome : ((store_session emptyState "s" dfOne []).sessions "s").isSome := rfl
    exact ⟨st', by rw [← hb.mpr hsome]; exact heq⟩
  · obtain ⟨st', b, heq, hb, -, -⟩ := hdel "absent"
    have hnone : ((store_session emptyState "s" dfOne []).sessions "absent").isSome = false := rfl
    refine ⟨st', ?_⟩
    have hbf : b = false := by
      cases b
      · rfl
      · exact absurd (hb.mp rfl) (by rw [hnone]; exact fun h => nomatch h)
    rw [← hbf]; exact heq

/-! ## Sandbox containment (claim C4) -/

theorem wfRefs_sessionState1 : sessionState1.WFRefs := by
  intro sid r h
  by_cases hk : sid = "s"
  · subst hk
    have : some 0 = some r := h
    cases this
    exact Nat.zero_lt_one
  · exact absurd h (by simp [sessionState1, store_session, emptyState, hk])

theorem execute_sessions_eq (st : ServiceState) (sid : String) (code : Json)
    (codeSem : String → Snippet) :
    (execute_pandas_code st sid code codeSem).1.sessions = st.sessions := by
  unfold execute_pandas_code
  cases hsid : st.sessions sid with
  | none => rfl
  | some r =>
    cases code
    case str s =>
      rcases hc : (codeSem s (st.heap r)).2 with res | msg <;> simp [hc]
    all_goals rfl

theorem execute_metadata_eq (st : ServiceState) (sid : String) (code : Json)
    (codeSem : String → Snippet) :
    (execute_pandas_code st sid code codeSem).1.metadata = st.metadata := by
  unfold execute_pandas_code
  cases hsid : st.sessions sid with
  | none => rfl
  | some r =>
    cases code
    case str s =>
      rcases hc : (codeSem s (st.heap r)).2 with res | msg <;> simp [hc]
    all_goals rfl

theorem execute_heap_frame (st : ServiceState) (sid : String) (code : Json)
    (codeSem : String → Snippet) (x : Nat) (hx : x ≠ st.next) :
    (execute_pandas_code st sid code codeSem).1.heap x = st.heap x := by
  unfold execute_pandas_code
  cases hsid : st.sessions sid with
  | none => rfl
  | some r =>
    cases code
    case str s =>
      rcases hc : (codeSem s (st.heap r)).2 with res | msg <;> simp [hc, hx]
    all_goals simp [hx]

/-- C4: running the sandbox on any code value and any snippet behaviour
leaves the registry maps untouched and every session's canonical
dataframe (that of the queried session included) byte-for-byte unchanged,
because execution operates on a freshly allocated copy; when the snippet
raises, the outcome is the `Code execution failed:` (`RuntimeError`)
condition carrying the original message. -/
theorem sandbox_containment (st : ServiceState) (sid : String) (code : Json)
    (codeSem : String → Snippet) (hwf : st.WFRefs) :
    (∀ k, (execute_pandas_code st sid code codeSem).1.sessions k = st.sessions k) ∧
    (∀ k, (execute_pandas_code st sid code codeSem).1.metadata k = st.metadata k) ∧
    (∀ k, get_session (execute_pandas_code st sid code codeSem).1 k = get_session st k) ∧
    (∀ r s d' msg, st.sessions sid = some r → code = .str s →
      codeSem s (st.heap r) = (d', .error msg) →
      (execute_pandas_code st sid code codeSem).2
        = .error ("Code execution failed: " ++ msg)) := by
  refine ⟨fun k => by rw [execute_sessions_eq],
          fun k => by rw [execute_metadata_eq],
          fun k => ?_,
          fun r s d' msg hsid hcode hrun => ?_⟩
  · unfold get_session
    rw [execute_sessions_eq]
    cases hk : st.sessions k with
    | none => rfl
    | some rk =>
      have hlt : rk < st.next := hwf k rk hk
      simp [execute_heap_frame st sid code codeSem rk (Nat.ne_of_lt hlt)]
  · subst hcode
    unfold execute_pandas_code
    rw [hsid]
    simp [hrun]

/-- Witness for C4: a raising snippet on a concrete one-session registry
yields the `CodeExecutionFailed` condition and leaves every canonical
dataset unchanged. -/
theorem sandbox_containment_witness :
    (∀ k, get_session (execute_pandas_code sessionState1 "s" (.str "1/0") semFail).1 k
        = get_session sessionState1 k) ∧
    (execute_pandas_code sessionState1 "s" (.str "1/0") semFail).2
      = .error ("Code execution failed: " ++ "boom") := by
  obtain ⟨-, -, hget, herr⟩ :=
    sandbox_containment sessionState1 "s" (.str "1/0") semFail wfRefs_sessionState1
  exact ⟨hget, herr 0 "1/0" (sessionState1.heap 0) "boom" rfl rfl rfl⟩

/-! ## Missing `result` binding (claim C2) -/

/-- C2 (amended): on an existing session, a snippet that completes
without raising but binds no variable named `result` does not make the
sandbox raise; the missing binding is classified on the unknown path with
`data` equal to the string rendering of Python `None` (the string
"None"), because `local_vars.get("result")` yields `None`,
`isinstance` matches none of the branches, and the fallback stringifies
it. -/
theorem missing_result_binding (st : ServiceState) (sid : String) (r : Nat)
    (codeSem : String → Snippet) (s : String) (d' : DataFrameData)
    (hsid : st.sessions sid = some r)
    (hrun : codeSem s (st.heap r) = (d', .ok Option.none)) :
    (execute_pandas_code st sid (.str s) codeSem).2
      = .ok ⟨"unknown", .str "None"⟩ := by
  unfold execute_pandas_code
  rw [hsid]
  simp [hrun, classifyResult, pyStr]

/-- Witness for C2 at a concrete session and snippet. -/
theorem missing_result_binding_witness :
    (execute_pandas_code sessionState1 "s" (.str "x = 1") semMissing).2
      = .ok ⟨"unknown", .str "None"⟩ :=
  missing_result_binding sessionState1 "s" 0 semMissing "x = 1"
    (sessionState1.heap 0) rfl rfl

/-- Counterexample to C2 as stated: at a concrete session and a snippet
that completes without binding `result`, the returned `data` is the
string "None", not a null value (`PyVal.none`, the model of Python
`None` / JSON null). -/
theorem missing_result_binding_counterexample :
    (execute_pandas_code sessionState1 "s" (.str "x = 1") semMissing).2
      = .ok ⟨"unknown", .str "None"⟩ ∧
    ∀ er, (execute_pandas_code sessionState1 "s" (.str "x = 1") semMissing).2
        = .ok er → ¬ er.data = PyVal.none := by
  refine ⟨rfl, fun er her => ?_⟩
  have h1 : er = ⟨"unknown", .str "None"⟩ := by
    have h2 : Except.ok (ε := String) er = .ok (ExecResult.mk "unknown" (.str "None")) := by
      rw [← her]; rfl
    exact Except.ok.inj h2
  rw [h1]
  exact fun h => nomatch h

/-! ## Orchestrator helper lemmas -/

theorem buildResponse_ok_spec (kvs : List (String × Json)) (rdata : Option PyVal)
    (ic : Bool) (el : ℚ) (r : QueryResponse)
    (h : buildResponse kvs rdata ic el = .ok r) :
    r.success = true ∧ r.data = rdata ∧ r.execution_time_ms = pyRound 2 el ∧
    (∀ a, (objGet kvs "answer").getD (.str "Analysis complete.") = .str a →
      r.answer = a) := by
  unfold buildResponse at h
  generalize hans : (objGet kvs "answer").getD (.str "Analysis complete.") = j at h
  cases j
  all_goals try exact Except.noConfusion h
  case str a =>
    dsimp only at h
    generalize hcond :
      (match rdata with | some v => validData v | Option.none => true) = cond at h
    cases cond
    · rw [if_neg (by simp)] at h
      exact Except.noConfusion h
    · rw [if_pos rfl] at h
      generalize hce : codeEcho kvs ic = ce at h
      cases ce with
      | ok codeF =>
        cases h
        refine ⟨rfl, rfl, rfl, fun a' ha' => ?_⟩
        exact Json.str.inj ha'
      | error e => exact Except.noConfusion h

theorem buildResponse_is_ok (kvs : List (String × Json)) (ic : Bool) (el : ℚ)
    (hans : objGet kvs "answer" = Option.none ∨
      ∃ a, objGet kvs "answer" = some (.str a))
    (hcode : objGet kvs "code" = Option.none ∨ objGet kvs "code" = some .null) :
    ∃ r, buildResponse kvs Option.none ic el = .ok r := by
  have hce : codeEcho kvs ic = .ok Option.none := by
    unfold codeEcho
    rcases hcode with h | h <;> cases ic <;> simp [h]
  unfold buildResponse
  rcases hans with h | ⟨a, h⟩ <;> rw [h] <;> simp [hce]

theorem buildResponse_answer_default (kvs : List (String × Json))
    (rdata : Option PyVal) (ic : Bool) (el : ℚ) (r : QueryResponse)
    (h : buildResponse kvs rdata ic el = .ok r)
    (hnone : objGet kvs "answer" = Option.none) :
    r.answer = "Analysis complete." := by
  obtain ⟨-, -, -, hans⟩ := buildResponse_ok_spec kvs rdata ic el r h
  exact hans _ (by rw [hnone]; rfl)

theorem buildResponse_answer_str (kvs : List (String × Json))
    (rdata : Option PyVal) (ic : Bool) (el : ℚ) (r : QueryResponse) (a : String)
    (h : buildResponse kvs rdata ic el = .ok r)
    (hstr : objGet kvs "answer" = some (.str a)) :
    r.answer = a := by
  obtain ⟨-, -, -, hans⟩ := buildResponse_ok_spec kvs rdata ic el r h
  exact hans _ (by rw [hstr]; rfl)

/-! ## Absent-session behaviour of the orchestrator (claim C9) -/

/-- C9: for an absent session id, `query` does not raise: it returns a
well-formed response with `success = false`, an elapsed time of `0`, and
an answer that mentions the session id; the state is untouched. -/
theorem query_absent_session (st : ServiceState) (sid : String)
    (replyText : String) (includeCode : Bool) (codeSem : String → Snippet)
    (elapsed : ℚ) (h : st.sessions sid = Option.none) :
    query st sid replyText includeCode codeSem elapsed
      = (st, ⟨false, "Session not found: " ++ sid ++ ". Please upload a file first.",
              Option.none, Option.none, Option.none, 0⟩) ∧
    ∃ pre post,
      (query st sid replyText includeCode codeSem elapsed).2.answer
        = pre ++ sid ++ post := by
  unfold query
  rw [h]
  exact ⟨rfl, "Session not found: ", ". Please upload a file first.", rfl⟩

/-- Witness for C9 on the empty registry. -/
theorem query_absent_session_witness :
    (query emptyState "sess42" "hello" false semNp 7).2.success = false ∧
    (query emptyState "sess42" "hello" false semNp 7).2.execution_time_ms = 0 ∧
    (∃ pre post, (query emptyState "sess42" "hello" false semNp 7).2.answer
        = pre ++ "sess42" ++ post) := by
  obtain ⟨heq, hment⟩ :=
    query_absent_session emptyState "sess42" "hello" false semNp 7 rfl
  exact ⟨by rw [heq], by rw [heq], hment⟩

/-! ## Numpy scalar classification and absent data (claim C10) -/

/-- C10: a snippet binding `result` to a numpy integer scalar is
classified as kind `unknown` with `data` its string rendering (the
`isinstance` scalar check covers only the built-in types, which a numpy
integer is not); and for every execution result classified `scalar` or
`unknown`, the orchestrator leaves the response's `data` field absent.
The concrete conjuncts exhibit this end to end on a one-session registry
with a snippet behaving like `result = df['x'].sum()`. -/
theorem numpy_scalar_unknown_data_absent (st : ServiceState) (sid : String)
    (replyText : String) (includeCode : Bool) (codeSem : String → Snippet)
    (elapsed : ℚ)
    (hkinds : ∀ cv er, (execute_pandas_code st sid cv codeSem).2 = .ok er →
      er.type = "scalar" ∨ er.type = "unknown") :
    (query st sid replyText includeCode codeSem elapsed).2.data = Option.none ∧
    (execute_pandas_code sessionState1 "s" (.str "result = df['x'].sum()") semNp).2
      = .ok ⟨"unknown", .str "5"⟩ ∧
    (query sessionState1 "s"
        "\x7b\"answer\":\"ok\",\"code\":\"result = df['x'].sum()\"\x7d"
        false semNp 7).2.data = Option.none ∧
    (query sessionState1 "s"
        "\x7b\"answer\":\"ok\",\"code\":\"result = df['x'].sum()\"\x7d"
        false semNp 7).2.success = true := by
  refine ⟨?_, rfl, rfl, rfl⟩
  unfold query
  cases hs : st.sessions sid with
  | none => rfl
  | some r =>
    unfold queryCore
    cases hp : parse_response replyText with
    | obj kvs0 =>
      dsimp only
      by_cases hcv : truthy ((objGet kvs0 "code").getD .null) = true
      · rw [if_pos hcv]
        cases hex : (execute_pandas_code st sid ((objGet kvs0 "code").getD .null) codeSem).2 with
        | ok er =>
          dsimp only
          have hk := hkinds _ er hex
          have hed : extractData er = Option.none := by
            unfold extractData
            rcases hk with hk | hk <;> rw [hk] <;> rfl
          rw [hed]
          cases hb : buildResponse kvs0 Option.none includeCode elapsed with
          | ok resp =>
            exact (buildResponse_ok_spec kvs0 Option.none includeCode elapsed resp hb).2.1
          | error e => rfl
        | error msg =>
          dsimp only
          cases hga : objGet kvs0 "answer" with
          | none => rfl
          | some v =>
            cases v <;> try rfl
            rename_i a
            dsimp only
            cases hb : buildResponse
                (insertKV kvs0 "answer"
                  (.str (a ++ "\n\n⚠️ Code execution note: " ++ msg)))
                Option.none includeCode elapsed with
            | ok resp =>
              exact (buildResponse_ok_spec _ Option.none includeCode elapsed resp hb).2.1
            | error e => rfl
      · rw [if_neg hcv]
        cases hb : buildResponse kvs0 Option.none includeCode elapsed with
        | ok resp =>
          exact (buildResponse_ok_spec kvs0 Option.none includeCode elapsed resp hb).2.1
        | error e => rfl
    | null => rfl
    | bool b => rfl
    | num q => rfl
    | str s => rfl
    | arr xs => rfl
    | nan => rfl
    | inf neg => rfl

/-- Witness for C10: the kind hypothesis discharged at the concrete
one-session registry whose snippets always yield a numpy integer. -/
theorem numpy_scalar_unknown_data_absent_witness :
    (query sessionState1 "s"
        "\x7b\"answer\":\"ok\",\"code\":\"result = df['x'].sum()\"\x7d"
        false semNp 7).2.data = Option.none ∧
    (execute_pandas_code sessionState1 "s" (.str "result = df['x'].sum()") semNp).2
      = .ok ⟨"unknown", .str "5"⟩ := by
  have h := numpy_scalar_unknown_data_absent sessionState1 "s"
    "\x7b\"answer\":\"ok\",\"code\":\"result = df['x'].sum()\"\x7d" false semNp 7
    (fun cv er hex => by
      cases cv with
      | str s =>
        have : (execute_pandas_code sessionState1 "s" (.str s) semNp).2
            = .ok ⟨"unknown", .str "5"⟩ := rfl
        rw [this] at hex
        cases hex
        exact Or.inr rfl
      | null => exact Except.noConfusion hex
      | bool b => exact Except.noConfusion hex
      | num q => exact Except.noConfusion hex
      | arr xs => exact Except.noConfusion hex
      | obj kvs => exact Except.noConfusion hex
      | nan => exact Except.noConfusion hex
      | inf neg => exact Except.noConfusion hex)
  exact ⟨h.2.2.1, h.2.1⟩

/-! ## Parser robustness and the success contract (claim C3) -/

/-- Counterexample to C3 as stated, at three concrete reply texts on a
one-session registry: the reply "42" is parseable structured text but
not an object, so `parsed.get` raises `AttributeError` and the top-level
handler returns `success = false`; the empty reply falls back to the raw
text as the answer, giving `success = true` with an *empty* answer; and a
reply whose parsed object has a `code` field but no `answer` field makes
the caveat-append after a failing execution raise `KeyError`, again
returning `success = false`. -/
theorem query_reply_robustness_counterexample :
    (query sessionState1 "s" "42" false semNp 7).2.success = false ∧
    ((query sessionState1 "s" "" false semNp 7).2.success = true ∧
      (query sessionState1 "s" "" false semNp 7).2.answer = "") ∧
    (query sessionState1 "s" "\x7b\"code\":\"c\"\x7d" false semFail 7).2.success
      = false :=
  ⟨rfl, ⟨rfl, rfl⟩, rfl⟩

/-- C3 (amended): for an existing session, `query` never raises (it is a
total function into well-formed responses), and it returns
`success = true` with the parsed answer — the answer field when the reply
parses (directly, fence-stripped, or brace-extracted) to an object with a
string answer, the raw reply text when nothing parses (the fallback
object), or the default "Analysis complete." when the object lacks an
answer — provided the parsed object's `code` field is absent or null and
its `answer` field, when present, is a string.  The answer is therefore
non-empty whenever its source text is.  Replies parsing to a non-object
value or carrying a failing code field can instead produce
`success = false`, as the counterexample records. -/
theorem query_reply_robustness (st : ServiceState) (sid : String)
    (replyText : String) (includeCode : Bool) (codeSem : String → Snippet)
    (elapsed : ℚ) (r : Nat) (kvs : List (String × Json))
    (hs : st.sessions sid = some r)
    (hparse : parse_response replyText = .obj kvs)
    (hans : objGet kvs "answer" = Option.none ∨
      ∃ a, objGet kvs "answer" = some (.str a))
    (hcode : objGet kvs "code" = Option.none ∨ objGet kvs "code" = some .null) :
    (query st sid replyText includeCode codeSem elapsed).2.success = true ∧
    (∀ a, objGet kvs "answer" = some (.str a) →
      (query st sid replyText includeCode codeSem elapsed).2.answer = a) ∧
    (objGet kvs "answer" = Option.none →
      (query st sid replyText includeCode codeSem elapsed).2.answer
        = "Analysis complete.") := by
  have hcv : truthy ((objGet kvs "code").getD .null) = true → False := by
    rcases hcode with h | h <;> rw [h] <;> exact fun hf => nomatch hf
  obtain ⟨resp, hb⟩ := buildResponse_is_ok kvs includeCode elapsed hans hcode
  have hq : (query st sid replyText includeCode codeSem elapsed).2 = resp := by
    unfold query
    rw [hs]
    unfold queryCore
    rw [hparse]
    dsimp only
    rw [if_neg hcv, hb]
  refine ⟨?_, fun a ha => ?_, fun hnone => ?_⟩
  · rw [hq]
    exact (buildResponse_ok_spec kvs Option.none includeCode elapsed resp hb).1
  · rw [hq]
    exact buildResponse_answer_str kvs Option.none includeCode elapsed resp a hb ha
  · rw [hq]
    exact buildResponse_answer_default kvs Option.none includeCode elapsed resp hb hnone

/-- Witness for C3 across the tolerated reply shapes: raw structured
text, a fenced block, a brace-embedded object, and plain prose (the
fallback), each on the one-session registry. -/
theorem query_reply_robustness_witness :
    (query sessionState1 "s" "\x7b\"answer\":\"plain\"\x7d" false semNp 7).2.success
        = true ∧
    (query sessionState1 "s" "\x7b\"answer\":\"plain\"\x7d" false semNp 7).2.answer
        = "plain" ∧
    (query sessionState1 "s" "```json\n\x7b\"answer\":\"fenced\"\x7d\n```"
        false semNp 7).2.answer = "fenced" ∧
    (query sessionState1 "s" "see \x7b\"answer\":\"embedded\"\x7d done"
        false semNp 7).2.answer = "embedded" ∧
    (query sessionState1 "s" "just prose" false semNp 7).2.success = true ∧
    (query sessionState1 "s" "just prose" false semNp 7).2.answer
        = "just prose" := by
  refine ⟨?_, ?_, ?_, ?_, ?_, ?_⟩
  · exact (query_reply_robustness sessionState1 "s" "\x7b\"answer\":\"plain\"\x7d"
      false semNp 7 0 [("answer", .str "plain")] rfl rfl
      (Or.inr ⟨"plain", rfl⟩) (Or.inl rfl)).1
  · exact (query_reply_robustness sessionState1 "s" "\x7b\"answer\":\"plain\"\x7d"
      false semNp 7 0 [("answer", .str "plain")] rfl rfl
      (Or.inr ⟨"plain", rfl⟩) (Or.inl rfl)).2.1 "plain" rfl
  · exact (query_reply_robustness sessionState1 "s"
      "```json\n\x7b\"answer\":\"fenced\"\x7d\n```"
      false semNp 7 0 [("answer", .str "fenced")] rfl rfl
      (Or.inr ⟨"fenced", rfl⟩) (Or.inl rfl)).2.1 "fenced" rfl
  · exact (query_reply_robustness sessionState1 "s"
      "see \x7b\"answer\":\"embedded\"\x7d done"
      false semNp 7 0 [("answer", .str "embedded")] rfl rfl
      (Or.inr ⟨"embedded", rfl⟩) (Or.inl rfl)).2.1 "embedded" rfl
  · exact (query_reply_robustness sessionState1 "s" "just prose"
      false semNp 7 0 [("answer", .str "just prose"), ("code", .null), ("chart", .null)]
      rfl rfl (Or.inr ⟨"just prose", rfl⟩) (Or.inr rfl)).1
  · exact (query_reply_robustness sessionState1 "s" "just prose"
      false semNp 7 0 [("answer", .str "just prose"), ("code", .null), ("chart", .null)]
      rfl rfl (Or.inr ⟨"just prose", rfl⟩) (Or.inr rfl)).2.1 "just prose" rfl

/-! ## Chart-kind coercion (claim C1) -/

theorem chartTypeOfStr_val (s : String) (ct : ChartType)
    (h : chartTypeOfStr s = some ct) : s = chartTypeVal ct := by
  unfold chartTypeOfStr at h
  split_ifs at h with h1 h2 h3 h4 h5 h6 h7 <;> cases h <;> assumption

/-- The bind-chain normal form of `mkChart` on a dict candidate. -/
theorem mkChart_obj_eq (kvs : List (String × Json)) :
    mkChart (.obj kvs)
      = (vStr ((objGet kvs "type").getD (.str "bar"))).bind (fun ts =>
          (chartTypeOfStr ts).bind (fun ct =>
            (vStr ((objGet kvs "title").getD (.str ""))).bind (fun title =>
              (vRecords ((objGet kvs "data").getD (.arr []))).bind (fun data =>
                (vOptStr ((objGet kvs "x_key").getD .null)).bind (fun xk =>
                  (vStrList ((objGet kvs "y_keys").getD (.arr []))).bind (fun yks =>
                    (vObj ((objGet kvs "config").getD (.obj []))).bind (fun cfg =>
                      some ⟨ct, title, data, xk, yks, cfg⟩))))))) := rfl

/-- Counterexample to C1 as stated: a parsed reply carrying a chart
candidate with *no* `type` field does not get its chart dropped — the
orchestrator defaults the missing value to "bar" through
`chart_info.get("type", "bar")` and returns a bar chart. -/
theorem chart_missing_type_counterexample :
    (query sessionState1 "s" "\x7b\"answer\":\"ok\",\"chart\":\x7b\"title\":\"t\"\x7d\x7d"
        false semNp 7).2.chart
      = some ⟨ChartType.bar, "t", [], Option.none, [], []⟩ := rfl

/-- C1 (amended): the orchestrator constructs a chart only through the
coercion of the candidate's `type` field into the closed chart-kind
enumeration — a constructed chart's kind is exactly the coercion of the
candidate's `type` string, except that a candidate *missing* the `type`
field is defaulted to the bar kind rather than dropped; a present `type`
value that is not a known kind string (or not a string at all) makes the
construction fail closed, dropping the chart. -/
theorem chart_type_coercion (ci : Json) :
    (∀ ch, mkChart ci = some ch →
      ∃ kvs, ci = .obj kvs ∧
        (objGet kvs "type" = some (.str (chartTypeVal ch.type)) ∨
         (objGet kvs "type" = Option.none ∧ ch.type = .bar))) ∧
    (∀ kvs s, ci = .obj kvs → objGet kvs "type" = some (.str s) →
      chartTypeOfStr s = Option.none → mkChart ci = Option.none) ∧
    (∀ kvs v, ci = .obj kvs → objGet kvs "type" = some v →
      (∀ s, ¬ v = .str s) → mkChart ci = Option.none) := by
  refine ⟨fun ch hch => ?_, fun kvs s hci hty hns => ?_, fun kvs v hci hty hvs => ?_⟩
  · cases ci with
    | obj kvs =>
      refine ⟨kvs, rfl, ?_⟩
      rw [mkChart_obj_eq] at hch
      simp only [Option.bind_eq_some] at hch
      obtain ⟨ts, hts, ct, hct, title, htitle, data, hdata, xk, hxk, yks, hyks,
        cfg, hcfg, heq⟩ := hch
      have hchty : ch.type = ct := by cases heq; rfl
      cases hty : objGet kvs "type" with
      | none =>
        right
        rw [hty] at hts
        have hts' : vStr (.str "bar") = some ts := hts
        have hbar : ts = "bar" := by cases hts'; rfl
        rw [hbar] at hct
        have hct' : ChartType.bar = ct :=
          Option.some.inj ((by rfl : chartTypeOfStr "bar" = some ChartType.bar).symm.trans hct)
        exact ⟨rfl, hchty.trans hct'.symm⟩
      | some v =>
        left
        rw [hty] at hts
        cases v <;> try exact Option.noConfusion hts
        case str s =>
          have hs : s = ts := by cases hts; rfl
          have hval : ts = chartTypeVal ct := chartTypeOfStr_val ts ct hct
          rw [hchty, ← hval, hs]
    | null => exact Option.noConfusion hch
    | bool b => exact Option.noConfusion hch
    | num q => exact Option.noConfusion hch
    | str s => exact Option.noConfusion hch
    | arr xs => exact Option.noConfusion hch
    | nan => exact Option.noConfusion hch
    | inf neg => exact Option.noConfusion hch
  · subst hci
    rw [mkChart_obj_eq, hty]
    have : vStr ((some (Json.str s)).getD (.str "bar")) = some s := rfl
    rw [this]
    simp [hns]
  · subst hci
    rw [mkChart_obj_eq, hty]
    have hv : vStr ((some v).getD (.str "bar")) = Option.none := by
      cases v <;> first
        | rfl
        | exact absurd rfl (hvs _)
    rw [hv]
    rfl

/-- Witness for C1: an unknown `type` value ("donut") is dropped, a
non-string `type` value is dropped, and a known value ("pie") is coerced
to its enumeration kind. -/
theorem chart_type_coercion_witness :
    mkChart (.obj [("type", .str "donut"), ("title", .str "t")]) = Option.none ∧
    mkChart (.obj [("type", .num 3), ("title", .str "t")]) = Option.none ∧
    (∃ kvs, Json.obj [("type", .str "pie"), ("title", .str "t")] = .obj kvs ∧
      (objGet kvs "type" = some (.str (chartTypeVal ChartType.pie)) ∨
       (objGet kvs "type" = Option.none ∧ ChartType.pie = .bar))) := by
  refine ⟨?_, ?_, ?_⟩
  · exact (chart_type_coercion (.obj [("type", .str "donut"), ("title", .str "t")])).2.1
      [("type", .str "donut"), ("title", .str "t")] "donut" rfl rfl rfl
  · exact (chart_type_coercion (.obj [("type", .num 3), ("title", .str "t")])).2.2
      [("type", .num 3), ("title", .str "t")] (.num 3) rfl rfl
      (fun s h => nomatch h)
  · have hch : mkChart (.obj [("type", .str "pie"), ("title", .str "t")])
        = some ⟨ChartType.pie, "t", [], Option.none, [], []⟩ := rfl
    obtain ⟨kvs, hkvs, hor⟩ :=
      (chart_type_coercion (.obj [("type", .str "pie"), ("title", .str "t")])).1
        ⟨ChartType.pie, "t", [], Option.none, [], []⟩ hch
    exact ⟨kvs, hkvs, hor⟩

/-! ## Top-value frequencies (claim C7) -/

theorem distinctFirst_nodup_aux (l : List CVal) (acc : List CVal) (hacc : acc.Nodup) :
    (l.foldl (fun acc v => if v ∈ acc then acc else acc ++ [v]) acc).Nodup := by
  induction l generalizing acc with
  | nil => exact hacc
  | cons a l ih =>
    simp only [List.foldl_cons]
    by_cases ha : a ∈ acc
    · rw [if_pos ha]; exact ih acc hacc
    · rw [if_neg ha]
      refine ih _ ?_
      simp [List.nodup_append, hacc, ha]

theorem distinctFirst_nodup (l : List CVal) : (distinctFirst l).Nodup :=
  distinctFirst_nodup_aux l [] List.nodup_nil

theorem sum_ite_eq_zero (vs : List CVal) (a : CVal) (h : a ∉ vs) :
    (vs.map (fun v => if v = a then 1 else 0)).sum = 0 := by
  induction vs with
  | nil => rfl
  | cons v rest ih =>
    simp only [List.map_cons, List.sum_cons]
    have hva : ¬ v = a := fun he => h (he ▸ List.mem_cons_self v rest)
    rw [if_neg hva, ih (fun hm => h (List.mem_cons_of_mem v hm))]

theorem sum_ite_eq_le (vs : List CVal) (a : CVal) (hvs : vs.Nodup) :
    (vs.map (fun v => if v = a then 1 else 0)).sum ≤ 1 := by
  induction vs with
  | nil => exact Nat.zero_le 1
  | cons v rest ih =>
    simp only [List.map_cons, List.sum_cons]
    by_cases hva : v = a
    · subst hva
      rw [if_pos rfl, sum_ite_eq_zero rest v (List.nodup_cons.mp hvs).1]
    · rw [if_neg hva]
      simpa using ih (List.nodup_cons.mp hvs).2

theorem sum_map_add_nat (vs : List CVal) (f g : CVal → ℕ) :
    (vs.map (fun v => f v + g v)).sum = (vs.map f).sum + (vs.map g).sum := by
  induction vs with
  | nil => rfl
  | cons v rest ih => simp [ih]; omega

theorem sum_count_le (l vs : List CVal) (hvs : vs.Nodup) :
    (vs.map (fun v => l.count v)).sum ≤ l.length := by
  induction l with
  | nil => simp
  | cons a l ih =>
    have hrw : (vs.map (fun v => (a :: l).count v))
        = vs.map (fun v => l.count v + if v = a then 1 else 0) := by
      apply List.map_congr_left
      intro v _
      rw [List.count_cons]
      congr 1
      simp only [beq_iff_eq]
      by_cases h : v = a
      · subst h; simp
      · rw [if_neg (fun he => h he.symm), if_neg h]
    rw [hrw, sum_map_add_nat vs (fun v => l.count v) (fun v => if v = a then 1 else 0)]
    have h2 := sum_ite_eq_le vs a hvs
    simp only [List.length_cons]
    omega

theorem value_counts_sum_le (cells : List (Option CVal)) :
    ((value_counts cells).map (·.2)).sum ≤ cells.length := by
  unfold value_counts
  have hperm := List.perm_insertionSort (fun a b : CVal × ℕ => b.2 ≤ a.2)
    ((distinctFirst (cells.filterMap id)).map
      (fun v => (v, (cells.filterMap id).count v)))
  have hmap := hperm.map (fun p : CVal × ℕ => p.2)
  rw [hmap.sum_eq, List.map_map]
  calc ((distinctFirst (cells.filterMap id)).map
        ((fun p : CVal × ℕ => p.2) ∘ fun v => (v, (cells.filterMap id).count v))).sum
      = ((distinctFirst (cells.filterMap id)).map
          (fun v => (cells.filterMap id).count v)).sum := rfl
    _ ≤ (cells.filterMap id).length :=
        sum_count_le (cells.filterMap id) _ (distinctFirst_nodup _)
    _ ≤ cells.length := List.length_filterMap_le id cells

theorem sum_take_le_nat (l : List ℕ) (n : Nat) : (l.take n).sum ≤ l.sum := by
  conv_rhs => rw [← List.take_append_drop n l]
  rw [List.sum_append]
  exact Nat.le_add_right _ _

theorem sum_pyRound2_pct_le (cs : List ℕ) (T : ℕ) (hT : cs.sum ≤ T)
    (hn : cs.length ≤ 10) :
    (cs.map (fun (c : ℕ) => pyRound 2 ((c : ℚ) / (T : ℚ) * 100))).sum ≤ 100 + 1/20 := by
  have key : ∀ ds : List ℕ,
      (ds.map (fun (c : ℕ) => pyRound 2 ((c : ℚ) / (T : ℚ) * 100))).sum
        ≤ ((ds.sum : ℚ) / (T : ℚ) * 100) + ds.length * (1/200) := by
    intro ds
    induction ds with
    | nil => simp
    | cons c ds ih =>
      simp only [List.map_cons, List.sum_cons, List.length_cons]
      have h1 : pyRound 2 ((c : ℚ) / (T : ℚ) * 100)
          ≤ (c : ℚ) / (T : ℚ) * 100 + 1/200 := by
        have h := pyRound_le 2 ((c : ℚ) / (T : ℚ) * 100)
        norm_num at h
        linarith
      calc pyRound 2 ((c : ℚ) / (T : ℚ) * 100)
            + (ds.map (fun (c : ℕ) => pyRound 2 ((c : ℚ) / (T : ℚ) * 100))).sum
          ≤ ((c : ℚ) / (T : ℚ) * 100 + 1/200)
            + (((ds.sum : ℚ) / (T : ℚ) * 100) + ds.length * (1/200)) :=
            add_le_add h1 ih
        _ = (((c + ds.sum : ℕ) : ℚ) / (T : ℚ) * 100) + ((ds.length + 1 : ℕ) : ℚ) * (1/200) := by
            push_cast; ring
  have h2 := key cs
  have h3 : ((cs.sum : ℚ)) / (T : ℚ) * 100 ≤ 100 := by
    rcases Nat.eq_zero_or_pos T with hT0 | hTpos
    · subst hT0; simp
    · have hTq : (0 : ℚ) < T := by exact_mod_cast hTpos
      have hcs : (cs.sum : ℚ) ≤ (T : ℚ) := by exact_mod_cast hT
      rw [div_mul_eq_mul_div, div_le_iff hTq]
      nlinarith
  have h4 : (cs.length : ℚ) * (1/200) ≤ 10 * (1/200) := by
    have hl : (cs.length : ℚ) ≤ 10 := by exact_mod_cast hn
    linarith
  calc (cs.map (fun (c : ℕ) => pyRound 2 ((c : ℚ) / (T : ℚ) * 100))).sum
      ≤ ((cs.sum : ℚ) / (T : ℚ) * 100) + cs.length * (1/200) := h2
    _ ≤ 100 + 10 * (1/200) := add_le_add h3 h4
    _ = 100 + 1/20 := by norm_num

theorem sum_pyRound2_pct_le_pairs (ps : List (CVal × ℕ)) (T : ℕ)
    (hT : (ps.map (·.2)).sum ≤ T) (hn : ps.length ≤ 10) :
    (ps.map (fun p => pyRound 2 ((p.2 : ℚ) / (T : ℚ) * 100))).sum ≤ 100 + 1/20 := by
  have h := sum_pyRound2_pct_le (ps.map (·.2)) T hT
    (by rw [List.length_map]; exact hn)
  rw [List.map_map] at h
  exact h

/-- C7 (amended): a column profile's `top_values` is populated exactly
when the column is non-numeric or has fewer than 20 distinct values; when
populated it holds at most 10 entries, whose counts sum to at most the
column's total length and whose percentages (each rounded to 2 decimals
against the total length) sum to at most 100.05 — the rounding of each of
the at most 10 entries can add up to 0.005, so the claimed bound of 100
can be exceeded, as the counterexample shows. -/
theorem top_values_spec (col : Column) :
    ((profile_column col).top_values ≠ Option.none ↔
      (isNumericDtype col.dtype = false ∨ (profile_column col).unique_count < 20)) ∧
    (∀ tv, (profile_column col).top_values = some tv →
      tv.length ≤ 10 ∧
      (tv.map (·.count)).sum ≤ col.cells.length ∧
      (tv.map (·.percentage)).sum ≤ 100 + 1/20) := by
  have hproj : (profile_column col).top_values
      = if isNumericDtype col.dtype = false
            ∨ (distinctFirst (col.cells.filterMap id)).length < 20 then
          some (topValuesOf col.cells)
        else Option.none := rfl
  have huniq : (profile_column col).unique_count
      = (distinctFirst (col.cells.filterMap id)).length := rfl
  constructor
  · rw [hproj, huniq]
    by_cases hcond : (isNumericDtype col.dtype = false
        ∨ (distinctFirst (col.cells.filterMap id)).length < 20)
    · rw [if_pos hcond]; simp [hcond]
    · rw [if_neg hcond]; simp [hcond]
  · intro tv htv
    have htv' : tv = topValuesOf col.cells := by
      rw [hproj] at htv
      by_cases hcond : (isNumericDtype col.dtype = false
          ∨ (distinctFirst (col.cells.filterMap id)).length < 20)
      · rw [if_pos hcond] at htv
        exact (Option.some.inj htv).symm
      · rw [if_neg hcond] at htv
        exact Option.noConfusion htv
    subst htv'
    refine ⟨?_, ?_, ?_⟩
    · unfold topValuesOf
      rw [List.length_map]
      exact List.length_take_le 10 (value_counts col.cells)
    · have hmm : (topValuesOf col.cells).map (·.count)
          = ((value_counts col.cells).take 10).map (·.2) := by
        unfold topValuesOf
        rw [List.map_map]
        rfl
      rw [hmm, List.map_take]
      calc (((value_counts col.cells).map (·.2)).take 10).sum
          ≤ ((value_counts col.cells).map (·.2)).sum := sum_take_le_nat _ _
        _ ≤ col.cells.length := value_counts_sum_le col.cells
    · have hmm : (topValuesOf col.cells).map (·.percentage)
          = ((value_counts col.cells).take 10).map
              (fun p => pyRound 2 ((p.2 : ℚ) / (col.cells.length : ℚ) * 100)) := by
        unfold topValuesOf
        rw [List.map_map]
        rfl
      rw [hmm]
      apply sum_pyRound2_pct_le_pairs
      · rw [List.map_take]
        calc (((value_counts col.cells).map (·.2)).take 10).sum
            ≤ ((value_counts col.cells).map (·.2)).sum := sum_take_le_nat _ _
          _ ≤ col.cells.length := value_counts_sum_le col.cells
      · exact List.length_take_le 10 (value_counts col.cells)

/-- Counterexample to C7 as stated: a 7-row object column with 7 distinct
values yields 7 top-value entries of percentage `round(100/7, 2) = 14.29`
each, which sum to 100.03 > 100. -/
theorem top_values_pct_counterexample :
    (((profile_column col7).top_values.getD []).map (·.percentage)).sum
      = 10003/100 ∧ (100 : ℚ) < 10003/100 := by
  have h : ((profile_column col7).top_values.getD []).map (·.percentage)
      = List.replicate 7 (pyRound 2 (((1:ℕ) : ℚ) / ((7:ℕ) : ℚ) * 100)) := rfl
  have hx : pyRound 2 (((1:ℕ) : ℚ) / ((7:ℕ) : ℚ) * 100) = 1429/100 := by
    push_cast
    norm_num [pyRound, roundHalfEven]
  refine ⟨?_, by norm_num⟩
  rw [h, hx, List.sum_replicate]
  norm_num

/-- Witness for C7 at the concrete 7-value object column. -/
theorem top_values_spec_witness :
    (profile_column col7).top_values ≠ Option.none ∧
    ∃ tv, (profile_column col7).top_values = some tv ∧ tv.length ≤ 10 ∧
      (tv.map (·.count)).sum ≤ col7.cells.length ∧
      (tv.map (·.percentage)).sum ≤ 100 + 1/20 := by
  obtain ⟨hiff, hall⟩ := top_values_spec col7
  have hpop : (profile_column col7).top_values = some (topValuesOf col7.cells) := rfl
  obtain ⟨h1, h2, h3⟩ := hall (topValuesOf col7.cells) hpop
  exact ⟨hiff.mpr (Or.inl rfl), topValuesOf col7.cells, hpop, h1, h2, h3⟩

/-! ## Quality score (claim C6) -/

theorem pyRound_intCast (d : ℕ) (n : ℤ) : pyRound d ((n : ℤ) : ℚ) = (n : ℚ) := by
  unfold pyRound roundHalfEven
  have h : ((n : ℚ) * 10 ^ d) = ((n * 10 ^ d : ℤ) : ℚ) := by push_cast; ring
  rw [h, Int.floor_intCast]
  rw [if_pos (by simp)]
  push_cast
  field_simp

theorem sum_map_le_sum_map (cols : List Column) (f g : Column → ℕ)
    (h : ∀ c ∈ cols, f c ≤ g c) : (cols.map f).sum ≤ (cols.map g).sum := by
  induction cols with
  | nil => exact Nat.le_refl 0
  | cons c cols ih =>
    simp only [List.map_cons, List.sum_cons]
    have h1 := h c (List.mem_cons_self c cols)
    have h2 := ih (fun c' hc' => h c' (List.mem_cons_of_mem c hc'))
    omega

theorem sum_len_of_wf (cols : List Column) (n : ℕ)
    (h : ∀ c ∈ cols, c.cells.length = n) :
    (cols.map (fun c => c.cells.length)).sum = cols.length * n := by
  induction cols with
  | nil => simp
  | cons c cols ih =>
    simp only [List.map_cons, List.sum_cons, List.length_cons]
    rw [h c (List.mem_cons_self c cols),
      ih (fun c' hc' => h c' (List.mem_cons_of_mem c hc'))]
    ring

/-- C6 (amended): the quality score is the cell-level completeness
percentage `(1 - missing_cells/total_cells)*100` rounded to one decimal
(with a zero-cell dataset scored 100); it lies in [0, 100], is exactly
100 when no cell is missing and exactly 0 when every cell of a dataset
with cells is missing, and the 10-row 2-column dataset with exactly one
missing cell scores 95.0.  The rounding is what the claim's plain
"equals the completeness percentage" misses, as the counterexample
shows. -/
theorem quality_score_spec (d : DataFrameData) (sid fn : String) (hwf : d.WF) :
    (0 ≤ (profile_dataframe d sid fn).quality_score ∧
      (profile_dataframe d sid fn).quality_score ≤ 100) ∧
    (profile_dataframe d sid fn).quality_score
      = pyRound 1 (if 0 < d.nrows * d.cols.length then
          (1 - (((d.cols.map (fun c => c.cells.countP (·.isNone))).sum : ℕ) : ℚ)
            / ((d.nrows * d.cols.length : ℕ) : ℚ)) * 100
        else 100) ∧
    ((d.cols.map (fun c => c.cells.countP (·.isNone))).sum = 0 →
      (profile_dataframe d sid fn).quality_score = 100) ∧
    (0 < d.nrows * d.cols.length →
      (d.cols.map (fun c => c.cells.countP (·.isNone))).sum = d.nrows * d.cols.length →
      (profile_dataframe d sid fn).quality_score = 0) ∧
    (profile_dataframe dfTenTwo "s" "f").quality_score = 95 := by
  have hdef : (profile_dataframe d sid fn).quality_score
      = pyRound 1 (if 0 < d.nrows * d.cols.length then
          (1 - (((d.cols.map (fun c => c.cells.countP (·.isNone))).sum : ℕ) : ℚ)
            / ((d.nrows * d.cols.length : ℕ) : ℚ)) * 100
        else 100) := rfl
  have hm : (d.cols.map (fun c => c.cells.countP (·.isNone))).sum
      ≤ d.nrows * d.cols.length := by
    calc (d.cols.map (fun c => c.cells.countP (·.isNone))).sum
        ≤ (d.cols.map (fun c => c.cells.length)).sum :=
          sum_map_le_sum_map d.cols _ _ (fun c _ => List.countP_le_length _)
      _ = d.cols.length * d.nrows := sum_len_of_wf d.cols d.nrows hwf
      _ = d.nrows * d.cols.length := Nat.mul_comm _ _
  have hcomp : (0 : ℚ) ≤ (if 0 < d.nrows * d.cols.length then
        (1 - (((d.cols.map (fun c => c.cells.countP (·.isNone))).sum : ℕ) : ℚ)
          / ((d.nrows * d.cols.length : ℕ) : ℚ)) * 100
      else 100) ∧
      (if 0 < d.nrows * d.cols.length then
        (1 - (((d.cols.map (fun c => c.cells.countP (·.isNone))).sum : ℕ) : ℚ)
          / ((d.nrows * d.cols.length : ℕ) : ℚ)) * 100
      else 100) ≤ 100 := by
    by_cases hT : 0 < d.nrows * d.cols.length
    · rw [if_pos hT]
      have hTq : (0 : ℚ) < ((d.nrows * d.cols.length : ℕ) : ℚ) := by
        exact_mod_cast hT
      have hmq : (((d.cols.map (fun c => c.cells.countP (·.isNone))).sum : ℕ) : ℚ)
          ≤ ((d.nrows * d.cols.length : ℕ) : ℚ) := by exact_mod_cast hm
      have h0 : (0 : ℚ) ≤ (((d.cols.map (fun c => c.cells.countP (·.isNone))).sum : ℕ) : ℚ) := by
        positivity
      constructor
      · have hle1 : (((d.cols.map (fun c => c.cells.countP (·.isNone))).sum : ℕ) : ℚ)
            / ((d.nrows * d.cols.length : ℕ) : ℚ) ≤ 1 := by
          rw [div_le_one hTq]; exact hmq
        nlinarith
      · have hge0 : (0 : ℚ) ≤ (((d.cols.map (fun c => c.cells.countP (·.isNone))).sum : ℕ) : ℚ)
            / ((d.nrows * d.cols.length : ℕ) : ℚ) := by positivity
        nlinarith
    · rw [if_neg hT]
      norm_num
  refine ⟨⟨?_, ?_⟩, hdef, fun hm0 => ?_, fun hT hmT => ?_, ?_⟩
  · rw [hdef]
    have := le_pyRound_of_le 1 _ 0 (by exact_mod_cast hcomp.1)
    exact_mod_cast this
  · rw [hdef]
    have := pyRound_le_of_le 1 _ 100 (by exact_mod_cast hcomp.2)
    exact_mod_cast this
  · rw [hdef, hm0]
    have h100 : pyRound 1 ((100 : ℤ) : ℚ) = ((100 : ℤ) : ℚ) := pyRound_intCast 1 100
    norm_num at h100
    by_cases hT : 0 < d.nrows * d.cols.length
    · rw [if_pos hT]
      have harg : (1 - ((0 : ℕ) : ℚ) / ((d.nrows * d.cols.length : ℕ) : ℚ)) * 100
          = (100 : ℚ) := by norm_num
      rw [harg]
      exact h100
    · rw [if_neg hT]
      exact h100
  · rw [hdef, hmT, if_pos hT]
    have hTq : ((d.nrows * d.cols.length : ℕ) : ℚ) ≠ 0 := by
      have : (0 : ℚ) < ((d.nrows * d.cols.length : ℕ) : ℚ) := by exact_mod_cast hT
      linarith
    rw [div_self hTq]
    have h0 : pyRound 1 ((0 : ℤ) : ℚ) = ((0 : ℤ) : ℚ) := pyRound_intCast 1 0
    norm_num at h0
    have harg : ((1 : ℚ) - 1) * 100 = 0 := by norm_num
    rw [harg]
    exact h0
  · have h : (profile_dataframe dfTenTwo "s" "f").quality_score
        = pyRound 1 (if 0 < dfTenTwo.nrows * dfTenTwo.cols.length then
            (1 - (((dfTenTwo.cols.map (fun c => c.cells.countP (·.isNone))).sum : ℕ) : ℚ)
              / ((dfTenTwo.nrows * dfTenTwo.cols.length : ℕ) : ℚ)) * 100
          else 100) := rfl
    rw [h]
    have h1 : (dfTenTwo.cols.map (fun c => c.cells.countP (·.isNone))).sum = 1 := rfl
    have h2 : dfTenTwo.nrows * dfTenTwo.cols.length = 20 := rfl
    rw [h1, h2]
    norm_num [pyRound, roundHalfEven]

theorem wf_dfTenTwo : dfTenTwo.WF := by
  intro c hc
  simp only [dfTenTwo, List.mem_cons, List.not_mem_nil, or_false] at hc
  rcases hc with rfl | rfl <;> rfl

/-- Counterexample to C6 as stated: a 1-row, 3-column dataset with one
missing cell has completeness 200/3 = 66.666…, but the stored
quality score is the rounded 66.7, so the score does not equal the
completeness percentage exactly. -/
theorem quality_score_counterexample :
    (profile_dataframe dfOneThree "s" "f").quality_score = 667/10 ∧
    ¬ ((profile_dataframe dfOneThree "s" "f").quality_score
        = (1 - (1 : ℚ) / 3) * 100) := by
  have h : (profile_dataframe dfOneThree "s" "f").quality_score
      = pyRound 1 (if 0 < dfOneThree.nrows * dfOneThree.cols.length then
          (1 - (((dfOneThree.cols.map (fun c => c.cells.countP (·.isNone))).sum : ℕ) : ℚ)
            / ((dfOneThree.nrows * dfOneThree.cols.length : ℕ) : ℚ)) * 100
        else 100) := rfl
  have h1 : (dfOneThree.cols.map (fun c => c.cells.countP (·.isNone))).sum = 1 := rfl
  have h2 : dfOneThree.nrows * dfOneThree.cols.length = 3 := rfl
  rw [h, h1, h2]
  constructor
  · norm_num [pyRound, roundHalfEven]
  · norm_num [pyRound, roundHalfEven]

/-- Witness for C6 at the spec's 10-row 2-column example. -/
theorem quality_score_spec_witness :
    (0 ≤ (profile_dataframe dfTenTwo "s" "f").quality_score ∧
      (profile_dataframe dfTenTwo "s" "f").quality_score ≤ 100) ∧
    (profile_dataframe dfTenTwo "s" "f").quality_score = 95 := by
  obtain ⟨hb, -, -, -, h95⟩ := quality_score_spec dfTenTwo "s" "f" wf_dfTenTwo
  exact ⟨hb, h95⟩

/-! ## Warning derivation (claim C8) -/

theorem mem_columnWarnings_missing (nrows : Nat) (c : ColumnProfile)
    (n : String) (p : ℚ) :
    Warning.missingValues n p ∈ columnWarnings nrows c ↔
      (c.name = n ∧ c.null_percentage = p ∧ 50 < c.null_percentage) := by
  unfold columnWarnings
  split_ifs with h1 h2 h3 <;> simp_all <;> aesop

theorem mem_columnWarnings_single (nrows : Nat) (c : ColumnProfile) (n : String) :
    Warning.singleUnique n ∈ columnWarnings nrows c ↔
      (c.name = n ∧ c.unique_count = 1) := by
  unfold columnWarnings
  split_ifs with h1 h2 h3 <;> simp_all <;> aesop

theorem mem_columnWarnings_id (nrows : Nat) (c : ColumnProfile) (n : String) :
    Warning.idColumn n ∈ columnWarnings nrows c ↔
      (c.name = n ∧ c.unique_count = nrows ∧ c.dtype = "object") := by
  unfold columnWarnings
  split_ifs with h1 h2 h3 <;> simp_all <;> aesop

theorem foldl_warnings (nrows : Nat) (cols : List ColumnProfile)
    (init : List Warning) :
    cols.foldl (fun acc col =>
      let acc1 := if 50 < col.null_percentage then
          acc ++ [Warning.missingValues col.name col.null_percentage] else acc
      let acc2 := if col.unique_count = 1 then
          acc1 ++ [Warning.singleUnique col.name] else acc1
      if col.unique_count = nrows ∧ col.dtype = "object" then
        acc2 ++ [Warning.idColumn col.name] else acc2) init
      = init ++ cols.flatMap (columnWarnings nrows) := by
  induction cols generalizing init with
  | nil => simp
  | cons c cols ih =>
    rw [List.foldl_cons, ih]
    have hstep : (let acc1 := if 50 < c.null_percentage then
          init ++ [Warning.missingValues c.name c.null_percentage] else init
        let acc2 := if c.unique_count = 1 then
          acc1 ++ [Warning.singleUnique c.name] else acc1
        if c.unique_count = nrows ∧ c.dtype = "object" then
          acc2 ++ [Warning.idColumn c.name] else acc2)
        = init ++ columnWarnings nrows c := by
      unfold columnWarnings
      dsimp only
      split_ifs <;> simp
    rw [hstep, List.flatMap_cons, List.append_assoc]

/-- C8: the warnings of a dataframe profile are exactly the column-order
concatenation of the per-column checks over the computed column profiles,
with no cap: a missing-values warning exactly for profiles whose (rounded)
null percentage exceeds 50, a single-unique-value warning exactly for
profiles with exactly one distinct value, and an identifier-column warning
exactly for profiles whose distinct count equals the row count and whose
dtype string is "object". -/
theorem warnings_spec (d : DataFrameData) (sid fn : String) :
    (profile_dataframe d sid fn).warnings
      = (profile_dataframe d sid fn).columns.flatMap (columnWarnings d.nrows) ∧
    (∀ n p, Warning.missingValues n p ∈ (profile_dataframe d sid fn).warnings ↔
      ∃ c ∈ (profile_dataframe d sid fn).columns,
        c.name = n ∧ c.null_percentage = p ∧ 50 < c.null_percentage) ∧
    (∀ n, Warning.singleUnique n ∈ (profile_dataframe d sid fn).warnings ↔
      ∃ c ∈ (profile_dataframe d sid fn).columns,
        c.name = n ∧ c.unique_count = 1) ∧
    (∀ n, Warning.idColumn n ∈ (profile_dataframe d sid fn).warnings ↔
      ∃ c ∈ (profile_dataframe d sid fn).columns,
        c.name = n ∧ c.unique_count = d.nrows ∧ c.dtype = "object") := by
  have hfold : (profile_dataframe d sid fn).warnings
      = (d.cols.map profile_column).foldl (fun acc col =>
          let acc1 := if 50 < col.null_percentage then
              acc ++ [Warning.missingValues col.name col.null_percentage] else acc
          let acc2 := if col.unique_count = 1 then
              acc1 ++ [Warning.singleUnique col.name] else acc1
          if col.unique_count = d.nrows ∧ col.dtype = "object" then
            acc2 ++ [Warning.idColumn col.name] else acc2) [] := rfl
  have hcols : (profile_dataframe d sid fn).columns = d.cols.map profile_column := rfl
  have hflat : (profile_dataframe d sid fn).warnings
      = (profile_dataframe d sid fn).columns.flatMap (columnWarnings d.nrows) := by
    rw [hfold, foldl_warnings, hcols, List.nil_append]
  refine ⟨hflat, fun n p => ?_, fun n => ?_, fun n => ?_⟩ <;>
    rw [hflat, List.mem_flatMap] <;>
    simp only [mem_columnWarnings_missing, mem_columnWarnings_single,
      mem_columnWarnings_id]
